import Mathlib

/-!
Shallow embedding of the WeatherSearch application (src/app.py and
src/weather_ai.py): the rule-based classification functions, the weather
summary composer, the insight-generation reply handling and the weather
data fetcher, together with proofs of the behavioural properties stated
in the specification.

Numeric weather readings (temperatures in Celsius, wind speed in km/h)
are modelled as rationals: every concrete reading the program receives is
a finite decimal, and the comparisons the source performs are exact order
comparisons, which `Rat` reproduces faithfully.
-/

namespace WeatherSearch

/-! ### Rule-based classifiers (src/weather_ai.py lines 16-94) -/

/-- `WeatherAI._get_temp_description` (src/weather_ai.py lines 16-41):
the if/elif chain over the feels-like temperature, reproduced with the
source's redundant lower bounds and its dead final `else` branch. -/
def _get_temp_description (feelslike_c : Rat) : String :=
  if feelslike_c < -20 then
    "Extremely Cold – Extreme precautions necessary, high frostbite risk"
  else if -20 ≤ feelslike_c ∧ feelslike_c < 0 then
    "Very Cold to Frigid – Frostbite risk, dress in thermal layers"
  else if 0 ≤ feelslike_c ∧ feelslike_c < 15 then
    "Cold – Need warm clothing, exposure could be uncomfortable"
  else if 15 ≤ feelslike_c ∧ feelslike_c < 25 then
    "Cool to Mild – Generally comfortable, light to medium layers needed"
  else if 25 ≤ feelslike_c ∧ feelslike_c < 30 then
    "Warm – Pleasant for most, dress lightly, stay hydrated"
  else if 30 ≤ feelslike_c ∧ feelslike_c < 40 then
    "Hot – Can be uncomfortable, important to stay cool and hydrated"
  else if 40 ≤ feelslike_c then
    "Extremely Hot – Dangerous heat levels, risk of heat-related illnesses"
  else
    "Unknown temperature comfort level"

/-- The seven temperature comfort bands of the specification, indexed 0-6:
open-ended below -20 and at/above 40, boundaries -20, 0, 15, 25, 30, 40
each closed on the lower end. -/
def inTempBand (i : Nat) (v : Rat) : Bool :=
  if i = 0 then decide (v < -20)
  else if i = 1 then decide (-20 ≤ v ∧ v < 0)
  else if i = 2 then decide (0 ≤ v ∧ v < 15)
  else if i = 3 then decide (15 ≤ v ∧ v < 25)
  else if i = 4 then decide (25 ≤ v ∧ v < 30)
  else if i = 5 then decide (30 ≤ v ∧ v < 40)
  else if i = 6 then decide (40 ≤ v)
  else false

/-- The fixed descriptive text of each temperature band (an index of 7 or
more is never reached; its value mirrors the source's dead `else` branch). -/
def tempBandText (i : Nat) : String :=
  if i = 0 then "Extremely Cold – Extreme precautions necessary, high frostbite risk"
  else if i = 1 then "Very Cold to Frigid – Frostbite risk, dress in thermal layers"
  else if i = 2 then "Cold – Need warm clothing, exposure could be uncomfortable"
  else if i = 3 then "Cool to Mild – Generally comfortable, light to medium layers needed"
  else if i = 4 then "Warm – Pleasant for most, dress lightly, stay hydrated"
  else if i = 5 then "Hot – Can be uncomfortable, important to stay cool and hydrated"
  else if i = 6 then "Extremely Hot – Dangerous heat levels, risk of heat-related illnesses"
  else "Unknown temperature comfort level"

/-- The index of the band a feels-like value falls in. -/
def tempIdx (v : Rat) : Nat :=
  if v < -20 then 0
  else if v < 0 then 1
  else if v < 15 then 2
  else if v < 25 then 3
  else if v < 30 then 4
  else if v < 40 then 5
  else 6

theorem tempIdx_lt (v : Rat) : tempIdx v < 7 := by
  unfold tempIdx; split_ifs <;> norm_num

theorem inTempBand_tempIdx (v : Rat) : inTempBand (tempIdx v) v = true := by
  unfold tempIdx
  split_ifs with h1 h2 h3 h4 h5 h6
  · exact decide_eq_true h1
  · exact decide_eq_true ⟨le_of_not_lt h1, h2⟩
  · exact decide_eq_true ⟨le_of_not_lt h2, h3⟩
  · exact decide_eq_true ⟨le_of_not_lt h3, h4⟩
  · exact decide_eq_true ⟨le_of_not_lt h4, h5⟩
  · exact decide_eq_true ⟨le_of_not_lt h5, h6⟩
  · exact decide_eq_true (le_of_not_lt h6)

theorem inTempBand_eq_tempIdx (i : Nat) (v : Rat) (h : inTempBand i v = true) :
    i = tempIdx v := by
  unfold inTempBand at h
  split_ifs at h with e0 e1 e2 e3 e4 e5 e6
  all_goals subst_vars
  all_goals simp only [decide_eq_true_eq] at h
  all_goals unfold tempIdx
  all_goals
    split_ifs <;>
      first
        | rfl
        | (exfalso
           first
             | (obtain ⟨ha, hb⟩ := h; linarith)
             | linarith)

theorem temp_description_eq_band_text (v : Rat) :
    _get_temp_description v = tempBandText (tempIdx v) := by
  unfold tempIdx
  split_ifs with h1 h2 h3 h4 h5 h6
  · unfold _get_temp_description
    rw [if_pos h1]
    rfl
  · unfold _get_temp_description
    rw [if_neg h1, if_pos ⟨le_of_not_lt h1, h2⟩]
    rfl
  · unfold _get_temp_description
    rw [if_neg h1, if_neg (fun hc => h2 hc.2), if_pos ⟨le_of_not_lt h2, h3⟩]
    rfl
  · unfold _get_temp_description
    rw [if_neg h1, if_neg (fun hc => h2 hc.2), if_neg (fun hc => h3 hc.2),
      if_pos ⟨le_of_not_lt h3, h4⟩]
    rfl
  · unfold _get_temp_description
    rw [if_neg h1, if_neg (fun hc => h2 hc.2), if_neg (fun hc => h3 hc.2),
      if_neg (fun hc => h4 hc.2), if_pos ⟨le_of_not_lt h4, h5⟩]
    rfl
  · unfold _get_temp_description
    rw [if_neg h1, if_neg (fun hc => h2 hc.2), if_neg (fun hc => h3 hc.2),
      if_neg (fun hc => h4 hc.2), if_neg (fun hc => h5 hc.2),
      if_pos ⟨le_of_not_lt h5, h6⟩]
    rfl
  · unfold _get_temp_description
    rw [if_neg h1, if_neg (fun hc => h2 hc.2), if_neg (fun hc => h3 hc.2),
      if_neg (fun hc => h4 hc.2), if_neg (fun hc => h5 hc.2),
      if_neg (fun hc => h6 hc.2), if_pos (le_of_not_lt h6)]
    rfl

/-- C2: the temperature-comfort classifier is a total banding of the
feels-like axis into the seven contiguous bands with boundaries -20, 0,
15, 25, 30, 40, each closed on the lower end: every value lies in exactly
one band, and the classifier returns that band's fixed text. -/
theorem temp_comfort_bands_partition (v : Rat) :
    (∃! i : Nat, i < 7 ∧ inTempBand i v = true) ∧
    (∀ i : Nat, inTempBand i v = true →
      _get_temp_description v = tempBandText i) := by
  constructor
  · refine ⟨tempIdx v, ⟨tempIdx_lt v, inTempBand_tempIdx v⟩, ?_⟩
    intro j hj
    exact inTempBand_eq_tempIdx j v hj.2
  · intro i hi
    rw [inTempBand_eq_tempIdx i v hi]
    exact temp_description_eq_band_text v

/-- `WeatherAI._get_wind_description` (src/weather_ai.py lines 43-62). -/
def _get_wind_description (wind_kph : Rat) : String :=
  if wind_kph < 5 then "very light breeze"
  else if wind_kph < 12 then "gentle breeze"
  else if wind_kph < 20 then "moderate wind"
  else if wind_kph < 30 then "strong wind"
  else "very strong wind"

/-- The five wind bands of the specification over nonnegative speeds,
thresholds 5, 12, 20, 30 km/h, each closed on the lower end. -/
def inWindBand (i : Nat) (w : Rat) : Bool :=
  if i = 0 then decide (0 ≤ w ∧ w < 5)
  else if i = 1 then decide (5 ≤ w ∧ w < 12)
  else if i = 2 then decide (12 ≤ w ∧ w < 20)
  else if i = 3 then decide (20 ≤ w ∧ w < 30)
  else if i = 4 then decide (30 ≤ w)
  else false

/-- The fixed text of each wind band. -/
def windBandText (i : Nat) : String :=
  if i = 0 then "very light breeze"
  else if i = 1 then "gentle breeze"
  else if i = 2 then "moderate wind"
  else if i = 3 then "strong wind"
  else "very strong wind"

/-- The index of the wind band a speed falls in. -/
def windIdx (w : Rat) : Nat :=
  if w < 5 then 0
  else if w < 12 then 1
  else if w < 20 then 2
  else if w < 30 then 3
  else 4

theorem windIdx_lt (w : Rat) : windIdx w < 5 := by
  unfold windIdx; split_ifs <;> norm_num

theorem inWindBand_windIdx (w : Rat) (h0 : 0 ≤ w) :
    inWindBand (windIdx w) w = true := by
  unfold windIdx
  split_ifs with h1 h2 h3 h4
  · exact decide_eq_true ⟨h0, h1⟩
  · exact decide_eq_true ⟨le_of_not_lt h1, h2⟩
  · exact decide_eq_true ⟨le_of_not_lt h2, h3⟩
  · exact decide_eq_true ⟨le_of_not_lt h3, h4⟩
  · exact decide_eq_true (le_of_not_lt h4)

theorem inWindBand_eq_windIdx (i : Nat) (w : Rat) (h : inWindBand i w = true) :
    i = windIdx w := by
  unfold inWindBand at h
  split_ifs at h with e0 e1 e2 e3 e4
  all_goals subst_vars
  all_goals simp only [decide_eq_true_eq] at h
  all_goals unfold windIdx
  all_goals
    split_ifs <;>
      first
        | rfl
        | (exfalso
           first
             | (obtain ⟨ha, hb⟩ := h; linarith)
             | linarith)

theorem wind_description_eq_band_text (w : Rat) :
    _get_wind_description w = windBandText (windIdx w) := by
  unfold _get_wind_description windIdx
  split_ifs <;> rfl

/-- C7: for every nonnegative wind speed, exactly one of the five wind
bands (thresholds 5, 12, 20, 30 km/h, closed on the lower end) holds,
and the classifier returns that band's fixed text. -/
theorem wind_bands_partition (w : Rat) (h0 : 0 ≤ w) :
    (∃! i : Nat, i < 5 ∧ inWindBand i w = true) ∧
    (∀ i : Nat, inWindBand i w = true →
      _get_wind_description w = windBandText i) := by
  constructor
  · refine ⟨windIdx w, ⟨windIdx_lt w, inWindBand_windIdx w h0⟩, ?_⟩
    intro j hj
    exact inWindBand_eq_windIdx j w hj.2
  · intro i hi
    rw [inWindBand_eq_windIdx i w hi]
    exact wind_description_eq_band_text w

/-- Witness for C7 at the specification's boundary example: the speed
5 km/h lies in the second band ("gentle breeze"), the boundary being
closed on the lower end. -/
theorem wind_bands_partition_witness :
    _get_wind_description 5 = windBandText 1 :=
  (wind_bands_partition 5 (by norm_num)).2 1 (by decide)

/-- The AQI lookup table of `WeatherAI._get_aqi_description`
(src/weather_ai.py lines 74-81), with the source's exact band strings. -/
def aqi_levels : List (Int × String) :=
  [(1, "Good - Air quality is satisfactory, and air pollution poses little or no risk."),
   (2, "Moderate - Air quality is acceptable. However, there may be a risk for some people, particularly those who are unusually sensitive to air pollution."),
   (3, "Unhealthy for Sensitive Groups - Members of sensitive groups may experience health effects. The general public is less likely to be affected."),
   (4, "Unhealthy - Some members of the general public may experience health effects; members of sensitive groups may experience more serious health effects"),
   (5, "Very Unhealthy - Health alert: The risk of health effects is increased for everyone."),
   (6, "Hazardous - Health warnings of emergency conditions. The entire population is more likely to be affected.")]

/-- `WeatherAI._get_aqi_description` (src/weather_ai.py lines 64-82):
`aqi_levels.get(aqi, "Unknown")`, a dictionary lookup with default. -/
def _get_aqi_description (aqi : Int) : String :=
  (aqi_levels.lookup aqi).getD "Unknown"

/-- The seven AQI classes of the specification: classes 0-5 are the six
fixed bands (AQI value i+1), class 6 is the "Unknown" sentinel for every
other integer. -/
def aqiClass (i : Nat) (n : Int) : Bool :=
  if i < 6 then decide (n = (i : Int) + 1) else decide (n < 1 ∨ 6 < n)

/-- The text of each AQI class: the six documented band strings and the
sentinel. -/
def aqiText (i : Nat) : String :=
  if i < 6 then ((aqi_levels.lookup ((i : Int) + 1)).getD "Unknown") else "Unknown"

/-- The class an integer AQI value falls in. -/
def aqiIdx (n : Int) : Nat :=
  if 1 ≤ n ∧ n ≤ 6 then (n - 1).toNat else 6

theorem aqiIdx_lt (n : Int) : aqiIdx n < 7 := by
  unfold aqiIdx; split_ifs with h <;> omega

theorem aqiClass_aqiIdx (n : Int) : aqiClass (aqiIdx n) n = true := by
  unfold aqiIdx
  split_ifs with h
  · unfold aqiClass
    rw [if_pos (by omega)]
    exact decide_eq_true (by omega)
  · unfold aqiClass
    rw [if_neg (by omega)]
    exact decide_eq_true (by omega)

theorem aqiClass_eq_aqiIdx (i : Nat) (n : Int) (hi : i < 7)
    (h : aqiClass i n = true) : i = aqiIdx n := by
  unfold aqiClass at h
  split_ifs at h with e
  · have hn := of_decide_eq_true h
    unfold aqiIdx
    rw [if_pos (by omega)]
    omega
  · have hn := of_decide_eq_true h
    unfold aqiIdx
    rw [if_neg (by omega)]
    omega

theorem aqi_description_unknown (n : Int) (h : n < 1 ∨ 6 < n) :
    _get_aqi_description n = "Unknown" := by
  have h1 : (n == 1) = false := beq_eq_false_iff_ne.mpr (by omega)
  have h2 : (n == 2) = false := beq_eq_false_iff_ne.mpr (by omega)
  have h3 : (n == 3) = false := beq_eq_false_iff_ne.mpr (by omega)
  have h4 : (n == 4) = false := beq_eq_false_iff_ne.mpr (by omega)
  have h5 : (n == 5) = false := beq_eq_false_iff_ne.mpr (by omega)
  have h6 : (n == 6) = false := beq_eq_false_iff_ne.mpr (by omega)
  simp [_get_aqi_description, aqi_levels, List.lookup, h1, h2, h3, h4, h5, h6]

/-- C8: every integer AQI value falls in exactly one of the seven classes
(the six documented bands for values 1-6, the "Unknown" sentinel for every
other integer), and the descriptor returns that class's string: the table
string for 1-6 and "Unknown" otherwise, never failing. -/
theorem aqi_description_classification (n : Int) :
    (∃! i : Nat, i < 7 ∧ aqiClass i n = true) ∧
    (∀ i : Nat, i < 7 → aqiClass i n = true →
      _get_aqi_description n = aqiText i) := by
  constructor
  · refine ⟨aqiIdx n, ⟨aqiIdx_lt n, aqiClass_aqiIdx n⟩, ?_⟩
    intro j hj
    exact aqiClass_eq_aqiIdx j n hj.1 hj.2
  · intro i hi h
    interval_cases i
    · have hn : n = 1 := by have := of_decide_eq_true h; omega
      subst hn; rfl
    · have hn : n = 2 := by have := of_decide_eq_true h; omega
      subst hn; rfl
    · have hn : n = 3 := by have := of_decide_eq_true h; omega
      subst hn; rfl
    · have hn : n = 4 := by have := of_decide_eq_true h; omega
      subst hn; rfl
    · have hn : n = 5 := by have := of_decide_eq_true h; omega
      subst hn; rfl
    · have hn : n = 6 := by have := of_decide_eq_true h; omega
      subst hn; rfl
    · have hn := of_decide_eq_true h
      rw [aqi_description_unknown n hn]
      rfl

/-- `WeatherAI._get_day_night_description` (src/weather_ai.py lines
84-94): `"day" if is_day == 1 else "night"`, over the integer flag the
weather document carries. -/
def _get_day_night_description (is_day : Int) : String :=
  if is_day = 1 then "day" else "night"

/-- C9: the day/night mapping returns "day" exactly when the flag is 1
and "night" for every other integer value. -/
theorem day_night_mapping (n : Int) :
    (n = 1 → _get_day_night_description n = "day") ∧
    (n ≠ 1 → _get_day_night_description n = "night") := by
  constructor
  · intro h
    subst h
    rfl
  · intro h
    unfold _get_day_night_description
    rw [if_neg h]

/-! ### Weather summary composer (src/weather_ai.py lines 97-129) -/

/-- The nested `condition` object of the weather document. Every field of
the document model is optional: a `none` stands for a missing key, on
which the source's dictionary access raises `KeyError`. -/
structure Condition where
  text : Option String
deriving DecidableEq

/-- The `current` object of the weather document, restricted to the keys
the summary composer reads. -/
structure Current where
  temp_c : Option Rat
  feelslike_c : Option Rat
  condition : Option Condition
  humidity : Option Rat
  wind_kph : Option Rat
  is_day : Option Int
deriving DecidableEq

/-- The `location` object of the weather document. -/
structure Location where
  name : Option String
deriving DecidableEq

/-- The weather document handed to the composer and analyzer. -/
structure WeatherData where
  location : Option Location
  current : Option Current
deriving DecidableEq

/-- `str(KeyError(k))` in Python: the missing key wrapped in quotes. -/
def keyErr (k : String) : String := "'" ++ k ++ "'"

/-- A dictionary access `d[k]`: the value, or a `KeyError` description. -/
def getKey {α : Type} (v : Option α) (k : String) : Except String α :=
  match v with
  | some x => Except.ok x
  | Option.none => Except.error (keyErr k)

/-- The fields `get_weather_summary` reads, once extracted. -/
structure SummaryFields where
  temp : Rat
  feels_like : Rat
  condition : String
  humidity : Rat
  wind_kph : Rat
  is_day : Int
  location_name : String
deriving DecidableEq

/-- The field reads of `get_weather_summary` (src/weather_ai.py lines
108-119) in source order; the first missing key aborts with its
`KeyError` description, as the `try` body does. -/
def extract_summary_fields (wd : WeatherData) : Except String SummaryFields := do
  let current ← getKey wd.current "current"
  let temp ← getKey current.temp_c "temp_c"
  let feels_like ← getKey current.feelslike_c "feelslike_c"
  let condition ← getKey current.condition "condition"
  let condition_text ← getKey condition.text "text"
  let humidity ← getKey current.humidity "humidity"
  let wind_kph ← getKey current.wind_kph "wind_kph"
  let is_day ← getKey current.is_day "is_day"
  let location ← getKey wd.location "location"
  let location_name ← getKey location.name "name"
  pure ⟨temp, feels_like, condition_text, humidity, wind_kph, is_day, location_name⟩

/-- Python's `str()` of a numeric weather reading. The document's numbers
are modelled as rationals and rendered exactly for integer values, the
form the interpolation contract is exercised at; the rendering of
non-integral readings is outside this fragment. -/
def pyNum (q : Rat) : String :=
  if q.den = 1 then toString q.num else toString q

/-- `self._get_temp_description(feels_like).split(' – ')[0]`
(src/weather_ai.py line 116): the comfort descriptor truncated to its
leading comfort-level phrase. -/
def comfortLevel (v : Rat) : String :=
  ((_get_temp_description v).splitOn " – ").headD ""

/-- The paragraph of the source's triple-quoted f-string
(src/weather_ai.py lines 121-126), with its exact literal segments
(including line breaks and indentation). -/
def summary_text (f : SummaryFields) : String :=
  "During the " ++ _get_day_night_description f.is_day ++ " in " ++
  f.location_name ++ ", residents can expect " ++
  (comfortLevel f.feels_like).toLower ++ " conditions \n            with " ++
  f.condition.toLower ++ " skies. The temperature stands at " ++
  pyNum f.temp ++ "°C, but with the wind chill, \n            it feels like " ++
  pyNum f.feels_like ++ "°C. Humidity levels are at " ++
  pyNum f.humidity ++ "%, and there is a " ++
  _get_wind_description f.wind_kph ++ " \n            blowing at " ++
  pyNum f.wind_kph ++ " km/h" ++
  (if f.feels_like < f.temp then ", which adds to the cold sensation" else "") ++
  ". \n            " ++
  (if f.feels_like < 10 then "Remember to layer up"
   else if f.temp > 25 then "Stay hydrated"
   else "Enjoy the pleasant weather") ++
  " \n            if you're heading outdoors."

/-- `WeatherAI.get_weather_summary` (src/weather_ai.py lines 97-129): the
interpolated paragraph, or the `except` branch's fallback message built
from the exception text. -/
def get_weather_summary (wd : WeatherData) : String :=
  match extract_summary_fields wd with
  | Except.error e => "Unable to generate weather summary: " ++ e
  | Except.ok f => summary_text f

/-- The substring relation used by the summary contract: the needle's
characters appear contiguously in the haystack. -/
def strContains (needle hay : String) : Prop :=
  needle.data <:+: hay.data

theorem strContains_suffix (a n : String) : strContains n (a ++ n) := by
  unfold strContains
  rw [String.data_append]
  exact (List.suffix_append a.data n.data).isInfix

theorem strContains_extend (n a b : String) (h : strContains n a) :
    strContains n (a ++ b) := by
  unfold strContains at h ⊢
  rw [String.data_append]
  exact h.trans (List.prefix_append a.data b.data).isInfix

theorem append_ne_empty_left (a b : String) (ha : a ≠ "") : a ++ b ≠ "" := by
  intro hc
  apply ha
  apply String.ext
  have := congrArg String.data hc
  rw [String.data_append] at this
  exact List.append_eq_nil.mp this |>.1

/-- C4: on a well-formed observation (every key the composer reads is
present), the summary is a non-empty string containing the city name, the
time-of-day term (one of "day" and "night"), the comfort descriptor
truncated to its leading comfort-level phrase (in the template's
lower-case rendering, per the source's `.lower()`), and the renderings of
the temperature and feels-like readings. -/
theorem get_weather_summary_contains (wd : WeatherData) (f : SummaryFields)
    (h : extract_summary_fields wd = Except.ok f) :
    get_weather_summary wd ≠ "" ∧
    strContains f.location_name (get_weather_summary wd) ∧
    strContains (_get_day_night_description f.is_day) (get_weather_summary wd) ∧
    (_get_day_night_description f.is_day = "day" ∨
      _get_day_night_description f.is_day = "night") ∧
    strContains (comfortLevel f.feels_like).toLower (get_weather_summary wd) ∧
    strContains (pyNum f.temp) (get_weather_summary wd) ∧
    strContains (pyNum f.feels_like) (get_weather_summary wd) := by
  have hs : get_weather_summary wd = summary_text f := by
    unfold get_weather_summary
    rw [h]
  rw [hs]
  unfold summary_text
  refine ⟨?_, ?_, ?_, ?_, ?_, ?_, ?_⟩
  · repeat apply append_ne_empty_left
    decide
  · exact strContains_extend _ _ _ (strContains_extend _ _ _
      (strContains_extend _ _ _ (strContains_extend _ _ _
      (strContains_extend _ _ _ (strContains_extend _ _ _
      (strContains_extend _ _ _ (strContains_extend _ _ _
      (strContains_extend _ _ _ (strContains_extend _ _ _
      (strContains_extend _ _ _ (strContains_extend _ _ _
      (strContains_extend _ _ _ (strContains_extend _ _ _
      (strContains_extend _ _ _ (strContains_extend _ _ _
      (strContains_extend _ _ _ (strContains_extend _ _ _
      (strContains_extend _ _ _ (strContains_suffix _
      _)))))))))))))))))))
  · exact strContains_extend _ _ _ (strContains_extend _ _ _
      (strContains_extend _ _ _ (strContains_extend _ _ _
      (strContains_extend _ _ _ (strContains_extend _ _ _
      (strContains_extend _ _ _ (strContains_extend _ _ _
      (strContains_extend _ _ _ (strContains_extend _ _ _
      (strContains_extend _ _ _ (strContains_extend _ _ _
      (strContains_extend _ _ _ (strContains_extend _ _ _
      (strContains_extend _ _ _ (strContains_extend _ _ _
      (strContains_extend _ _ _ (strContains_extend _ _ _
      (strContains_extend _ _ _ (strContains_extend _ _ _
      (strContains_extend _ _ _ (strContains_suffix _
      _)))))))))))))))))))))
  · unfold _get_day_night_description
    split_ifs
    · exact Or.inl rfl
    · exact Or.inr rfl
  · exact strContains_extend _ _ _ (strContains_extend _ _ _
      (strContains_extend _ _ _ (strContains_extend _ _ _
      (strContains_extend _ _ _ (strContains_extend _ _ _
      (strContains_extend _ _ _ (strContains_extend _ _ _
      (strContains_extend _ _ _ (strContains_extend _ _ _
      (strContains_extend _ _ _ (strContains_extend _ _ _
      (strContains_extend _ _ _ (strContains_extend _ _ _
      (strContains_extend _ _ _ (strContains_extend _ _ _
      (strContains_extend _ _ _ (strContains_suffix _ _)))))))))))))))))
  · exact strContains_extend _ _ _ (strContains_extend _ _ _
      (strContains_extend _ _ _ (strContains_extend _ _ _
      (strContains_extend _ _ _ (strContains_extend _ _ _
      (strContains_extend _ _ _ (strContains_extend _ _ _
      (strContains_extend _ _ _ (strContains_extend _ _ _
      (strContains_extend _ _ _ (strContains_extend _ _ _
      (strContains_extend _ _ _ (strContains_suffix _ _)))))))))))))
  · exact strContains_extend _ _ _ (strContains_extend _ _ _
      (strContains_extend _ _ _ (strContains_extend _ _ _
      (strContains_extend _ _ _ (strContains_extend _ _ _
      (strContains_extend _ _ _ (strContains_extend _ _ _
      (strContains_extend _ _ _ (strContains_extend _ _ _
      (strContains_extend _ _ _ (strContains_suffix _ _)))))))))))

/-- The specification's example observation (feels-like 5, wind 8 km/h,
day, London). -/
def wd_example : WeatherData :=
  { location := some { name := some "London" },
    current := some
      { temp_c := some 5, feelslike_c := some 5,
        condition := some { text := some "Sunny" }, humidity := some 70,
        wind_kph := some 8, is_day := some 1 } }

/-- The fields the example observation extracts to. -/
def fields_example : SummaryFields :=
  ⟨5, 5, "Sunny", 70, 8, 1, "London"⟩

/-- Witness for C4 at the specification's example observation. -/
theorem get_weather_summary_contains_witness :
    get_weather_summary wd_example ≠ "" ∧
    strContains fields_example.location_name (get_weather_summary wd_example) ∧
    strContains (_get_day_night_description fields_example.is_day)
      (get_weather_summary wd_example) ∧
    (_get_day_night_description fields_example.is_day = "day" ∨
      _get_day_night_description fields_example.is_day = "night") ∧
    strContains (comfortLevel fields_example.feels_like).toLower
      (get_weather_summary wd_example) ∧
    strContains (pyNum fields_example.temp) (get_weather_summary wd_example) ∧
    strContains (pyNum fields_example.feels_like) (get_weather_summary wd_example) :=
  get_weather_summary_contains wd_example fields_example rfl

/-- C5: whenever a key the composer reads is missing, the summary is the
fallback message: the fixed prefix followed by the `KeyError` description
of the first missing key; no exception escapes (the composer is a total
function). -/
theorem get_weather_summary_fallback (wd : WeatherData) (e : String)
    (h : extract_summary_fields wd = Except.error e) :
    get_weather_summary wd = "Unable to generate weather summary: " ++ e := by
  unfold get_weather_summary
  rw [h]

/-- A document with no `current` object. -/
def wd_missing : WeatherData := { location := Option.none, current := Option.none }

/-- Witness for C5 at a document with no `current` object. -/
theorem get_weather_summary_fallback_witness :
    get_weather_summary wd_missing =
      "Unable to generate weather summary: " ++ keyErr "current" :=
  get_weather_summary_fallback wd_missing (keyErr "current") rfl

/-! ### Weather data fetcher (src/app.py lines 158-176) -/

/-- The outcome of the single `requests.get` call: a transport failure
(`requests.exceptions.RequestException` other than an HTTP error), or a
response with a status code and a body that parses to a weather document
or not. -/
inductive HttpOutcome where
  | transportError
  | response (status : Nat) (body : Option WeatherData)
deriving DecidableEq

/-- The classification the fetcher surfaces through `st.error`. -/
inductive FetchError where
  | cityNotFound
  | apiError
  | networkError
deriving DecidableEq

/-- What one call to `get_current_weather` produces: the returned value,
the error class displayed (if any), and how many HTTP requests were
issued. -/
structure FetchResult where
  data : Option WeatherData
  err : Option FetchError
  requests : Nat
deriving DecidableEq

/-- `Response.raise_for_status` raises `HTTPError` exactly for client and
server error status codes. -/
def raise_for_status (status : Nat) : Bool :=
  decide (400 ≤ status ∧ status < 600)

/-- `get_current_weather` (src/app.py lines 158-176): empty city returns
`None` without a request; otherwise one request is issued, an `HTTPError`
with status 400 is reported as city-not-found, any other `HTTPError` as
an API error, and a `RequestException` — a transport failure, or a body
that fails to parse as JSON (`JSONDecodeError` is a `RequestException`)
— as a network error. Every branch returns; no exception escapes. -/
def get_current_weather (city : String) (outcome : HttpOutcome) : FetchResult :=
  if city = "" then ⟨Option.none, Option.none, 0⟩
  else
    match outcome with
    | HttpOutcome.transportError =>
        ⟨Option.none, some FetchError.networkError, 1⟩
    | HttpOutcome.response status body =>
        if raise_for_status status then
          if status = 400 then ⟨Option.none, some FetchError.cityNotFound, 1⟩
          else ⟨Option.none, some FetchError.apiError, 1⟩
        else
          match body with
          | some j => ⟨some j, Option.none, 1⟩
          | Option.none => ⟨Option.none, some FetchError.networkError, 1⟩

/-- C3: a lookup with a non-empty city issues exactly one request and
either returns the parsed observation with no error, or returns nothing
together with one classified error: HTTP 400 is city-not-found, any other
HTTP error status is an API error, a transport failure is a network
error. -/
theorem get_current_weather_classifies (city : String) (outcome : HttpOutcome)
    (hc : city ≠ "") :
    (get_current_weather city outcome).requests = 1 ∧
    (((get_current_weather city outcome).data.isSome ∧
        (get_current_weather city outcome).err = Option.none) ∨
      ((get_current_weather city outcome).data = Option.none ∧
        (get_current_weather city outcome).err.isSome)) ∧
    (outcome = HttpOutcome.transportError →
      (get_current_weather city outcome).err = some FetchError.networkError) ∧
    (∀ b, outcome = HttpOutcome.response 400 b →
      (get_current_weather city outcome).err = some FetchError.cityNotFound) ∧
    (∀ st b, outcome = HttpOutcome.response st b → raise_for_status st = true →
      st ≠ 400 →
      (get_current_weather city outcome).err = some FetchError.apiError) ∧
    (∀ st j, outcome = HttpOutcome.response st (some j) →
      raise_for_status st = false →
      (get_current_weather city outcome).data = some j ∧
        (get_current_weather city outcome).err = Option.none) := by
  unfold get_current_weather
  rw [if_neg hc]
  rcases outcome with _ | ⟨st, b⟩
  · refine ⟨rfl, Or.inr ⟨rfl, rfl⟩, fun _ => rfl, ?_, ?_, ?_⟩
    · intro b h
      cases h
    · intro st b h
      cases h
    · intro st j h
      cases h
  · dsimp only
    refine ⟨?_, ?_, ?_, ?_, ?_, ?_⟩
    · split_ifs <;> first | rfl | (rcases b with _ | j <;> rfl)
    · split_ifs
      · exact Or.inr ⟨rfl, rfl⟩
      · exact Or.inr ⟨rfl, rfl⟩
      · rcases b with _ | j
        · exact Or.inr ⟨rfl, rfl⟩
        · exact Or.inl ⟨rfl, rfl⟩
    · intro h
      cases h
    · intro b2 h
      cases h
      rw [if_pos (by unfold raise_for_status; exact decide_eq_true (by omega)),
        if_pos rfl]
    · intro st2 b2 h hr hne
      cases h
      rw [if_pos hr, if_neg hne]
    · intro st2 j h hr
      cases h
      rw [if_neg (by rw [hr]; exact Bool.false_ne_true)]
      exact ⟨rfl, rfl⟩

/-- Witness for C3: a lookup for "Paris" answered with HTTP 400 issues
one request and reports city-not-found. -/
theorem get_current_weather_classifies_witness :
    (get_current_weather "Paris" (HttpOutcome.response 400 Option.none)).requests
        = 1 ∧
    (get_current_weather "Paris" (HttpOutcome.response 400 Option.none)).err
        = some FetchError.cityNotFound := by
  have h := get_current_weather_classifies "Paris"
    (HttpOutcome.response 400 Option.none) (by decide)
  exact ⟨h.1, h.2.2.2.1 Option.none rfl⟩

/-- C10: for the empty (falsy) city string, `get_current_weather` returns
`None` at once — no request is issued and no error is displayed —
whatever the network would have answered. -/
theorem get_current_weather_empty_city (outcome : HttpOutcome) :
    get_current_weather "" outcome = ⟨Option.none, Option.none, 0⟩ := rfl

/-! ### Startup configuration (src/app.py lines 12-29 and 281-297) -/

/-- Modelled from the spec: the third-party generative-model client
constructor (`OpenAI(...)`, called by `WeatherAI.__init__`) fails when no
API key resolves — "absence of the generative-model key disables insight
generation". -/
def openai_client_init (key : Option String) : Except Unit Unit :=
  match key with
  | some _ => Except.ok ()
  | Option.none => Except.error ()

/-- `api_key or os.getenv('OPENAI_API_KEY')` in `WeatherAI.__init__`
(src/weather_ai.py line 13): Python `or` falls through on a falsy (empty
or absent) left operand. -/
def resolve_key (apiKey envKey : Option String) : Option String :=
  match apiKey with
  | some s => if s = "" then envKey else some s
  | Option.none => envKey

/-- `WeatherAI.__init__` (src/weather_ai.py lines 6-13). -/
def weatherAI_init (apiKey envKey : Option String) : Except Unit Unit :=
  openai_client_init (resolve_key apiKey envKey)

/-- The module-level `try`/`except` of src/app.py lines 24-29: the app
passes the environment's OPENAI_API_KEY and `ai_enabled` records whether
construction succeeded. -/
def ai_enabled (openaiEnv : Option String) : Bool :=
  match weatherAI_init openaiEnv openaiEnv with
  | Except.ok _ => true
  | Except.error _ => false

/-- Python truthiness of the optional key string: `not WEATHER_API_KEY`. -/
def falsy (s : Option String) : Bool :=
  match s with
  | some v => decide (v = "")
  | Option.none => true

/-- What one pass of `main` (src/app.py lines 281-311) does: whether the
fatal setup instruction was shown (and the function returned early),
whether the AI-disabled warning was shown, and how many weather requests
were issued. -/
structure MainTrace where
  fatalSetupMsg : Bool
  aiWarning : Bool
  requests : Nat
deriving DecidableEq

/-- `main` (src/app.py lines 281-311): a falsy weather key shows the
setup instruction and returns before any lookup; otherwise the
AI-disabled warning is shown iff `ai_enabled` is false, and a lookup runs
only when the city input is non-empty. -/
def main_model (weatherKey openaiEnv : Option String) (city : String)
    (outcome : HttpOutcome) : MainTrace :=
  if falsy weatherKey then ⟨true, false, 0⟩
  else
    ⟨false, !ai_enabled openaiEnv,
      if city = "" then 0 else (get_current_weather city outcome).requests⟩

/-- C6: a missing weather-data API key is fatal at startup — the setup
instruction is surfaced and no weather lookup is performed; a missing
generative-model key alone only disables insight generation (the warning
is shown) while a weather lookup still proceeds. -/
theorem startup_key_policy (weatherKey openaiEnv : Option String)
    (city : String) (outcome : HttpOutcome) :
    (weatherKey = Option.none →
      main_model weatherKey openaiEnv city outcome = ⟨true, false, 0⟩) ∧
    (∀ k, weatherKey = some k → k ≠ "" → openaiEnv = Option.none →
      ai_enabled openaiEnv = false ∧
      (main_model weatherKey openaiEnv city outcome).fatalSetupMsg = false ∧
      (main_model weatherKey openaiEnv city outcome).aiWarning = true ∧
      (city ≠ "" →
        (main_model weatherKey openaiEnv city outcome).requests = 1)) := by
  constructor
  · intro h
    subst h
    rfl
  · intro k hk hne henv
    subst hk
    subst henv
    have hai : ai_enabled Option.none = false := rfl
    have hfal : falsy (some k) = false := by
      unfold falsy
      exact decide_eq_false hne
    refine ⟨hai, ?_, ?_, ?_⟩
    · unfold main_model
      rw [hfal]
      rfl
    · unfold main_model
      rw [hfal]
      rfl
    · intro hcity
      unfold main_model
      rw [hfal]
      rw [if_neg Bool.false_ne_true]
      dsimp only
      rw [if_neg hcity]
      exact (get_current_weather_classifies city outcome hcity).1

/-! ### Insight generation reply handling (src/weather_ai.py lines 205-233)

The source hands the model's reply text to the Python builtin `eval`
(line 217) and returns whatever value results; only when evaluation
raises does the inner bare `except` return the fixed fallback object, and
the outer `except Exception` returns the same object when the external
call itself fails. `eval` accepts Python expression syntax, a strict
superset of JSON — so non-JSON replies such as `None` evaluate instead of
falling back.
-/

/-- A Python value, for the fragment of expressions the reply handling is
modelled over. -/
inductive PyVal where
  | none
  | bool (b : Bool)
  | int (n : Int)
  | str (s : String)
  | dict (entries : List (String × PyVal))

/-- Python's `str.strip()`: whitespace removed from both ends (defined by
structural recursion over the character list, so that concrete replies
evaluate inside proofs). -/
def pyStrip (s : String) : String :=
  String.mk
    (((s.data.dropWhile fun c => c.isWhitespace).reverse.dropWhile
      fun c => c.isWhitespace).reverse)

/-- A Python quoted string literal (single or double quotes; the fragment
excludes escapes and literals containing their own quote character). -/
def quoted (cs : List Char) : Option String :=
  match cs with
  | [] => Option.none
  | q :: rest =>
    if (q == '\'' || q == '"') && !rest.isEmpty &&
        rest.getLast? == some q && !(rest.dropLast.contains q)
    then some (String.mk rest.dropLast)
    else Option.none

/-- The value of a string of decimal digits. -/
def digitsToNat (cs : List Char) : Nat :=
  cs.foldl (fun a c => a * 10 + (c.toNat - 48)) 0

/-- A Python integer literal, with optional leading minus sign. -/
def intLit (cs : List Char) : Option Int :=
  match cs with
  | '-' :: rest =>
    if !rest.isEmpty && rest.all Char.isDigit
    then some (-(digitsToNat rest : Int))
    else Option.none
  | _ =>
    if !cs.isEmpty && cs.all Char.isDigit
    then some ((digitsToNat cs : Int))
    else Option.none

/-- One `key: value` entry of a flat dictionary literal whose key and
value are quoted strings (the fragment excludes entries containing commas
or colons inside the strings). -/
def dictEntry (s : String) : Option (String × PyVal) :=
  match s.splitOn ":" with
  | [k, v] =>
    match quoted (pyStrip k).data, quoted (pyStrip v).data with
    | some key, some val => some (key, PyVal.str val)
    | _, _ => Option.none
  | _ => Option.none

/-- Modelled from Python semantics: the builtin `eval` of
src/weather_ai.py line 217, on a fragment of Python expression syntax
covering the reply shapes at issue — `None`, `True`, `False`, integer
literals, quoted strings, and flat dictionaries of quoted strings.
Evaluation failure (a raise) is `Option.none`. The fragment witnesses
that `eval` accepts values that are not JSON objects (e.g. `None`,
single-quoted strings) and returns them as the reply value. -/
def pyEvalFrag (s : String) : Option PyVal :=
  let t := pyStrip s
  if t = "None" then some PyVal.none
  else if t = "True" then some (PyVal.bool true)
  else if t = "False" then some (PyVal.bool false)
  else
    match intLit t.data with
    | some n => some (PyVal.int n)
    | Option.none =>
      match quoted t.data with
      | some str => some (PyVal.str str)
      | Option.none =>
        match t.data with
        | '{' :: rest =>
          if rest.getLast? == some '}' then
            let inner := String.mk rest.dropLast
            if pyStrip inner = "" then some (PyVal.dict [])
            else
              match (inner.splitOn ",").mapM dictEntry with
              | some es => some (PyVal.dict es)
              | Option.none => Option.none
          else Option.none
        | _ => Option.none

/-- The fixed four-field fallback object of src/weather_ai.py lines
219-224 and 228-233 (both `except` branches build the same dictionary,
in the same key order). -/
def fallbackInsight : PyVal :=
  PyVal.dict
    [("analysis", PyVal.str "Unable to analyze weather conditions."),
     ("recommendations", PyVal.str "Recommendations unavailable."),
     ("activities", PyVal.str "Activity suggestions unavailable."),
     ("health_advice", PyVal.str "Health advice unavailable.")]

/-- The reply handling of `WeatherAI.analyze_weather` (src/weather_ai.py
lines 205-233). The outcome of the external chat call is the parameter: a
failure (caught by the outer `except Exception`), or the reply's text
content, which is stripped and handed to `eval`; only when evaluation
raises does the inner bare `except` substitute the fallback object —
otherwise the evaluated value is returned as-is. -/
def analyze_weather (callResult : Except Unit String) : PyVal :=
  match callResult with
  | Except.error _ => fallbackInsight
  | Except.ok content =>
    match pyEvalFrag (pyStrip content) with
    | some v => v
    | Option.none => fallbackInsight

/-- A necessary condition for a string to be a JSON document: after
leading whitespace it starts with a character that can begin a JSON value
(an object, array, string, `true`, `false`, `null`, or a number). -/
def jsonLeadOk (s : String) : Bool :=
  match (pyStrip s).data with
  | [] => false
  | c :: _ =>
    c == '\x7b' || c == '[' || c == '"' || c == 't' || c == 'f' ||
      c == 'n' || c == '-' || c.isDigit

/-- A failed external call is replaced by the fallback object
(the outer `except Exception` branch). -/
theorem analyze_weather_call_failure :
    analyze_weather (Except.error ()) = fallbackInsight := rfl

/-- A reply the literal evaluator rejects is replaced by the fallback
object (the inner bare `except` branch). -/
theorem analyze_weather_unparsable (content : String)
    (h : pyEvalFrag (pyStrip content) = Option.none) :
    analyze_weather (Except.ok content) = fallbackInsight := by
  unfold analyze_weather
  dsimp only
  rw [h]

/-- C1 fails on the code: the reply text "None" is not JSON (it does not
even start like a JSON value), yet `analyze_weather` does not return the
four-field fallback object — `eval` accepts it and the function returns
the Python value `None`, contradicting the contract (and the function's
own `Dict[str, str]` annotation). -/
theorem analyze_weather_eval_leak :
    jsonLeadOk "None" = false ∧
    analyze_weather (Except.ok "None") = PyVal.none ∧
    analyze_weather (Except.ok "None") ≠ fallbackInsight := by
  refine ⟨rfl, rfl, fun h => ?_⟩
  exact PyVal.noConfusion h

end WeatherSearch
